import Mathlib

/-!
Verification of the request-data validation engine described by the
repository's specification, together with the concrete validation
configurations, the traditional validation middleware, and the user
controller found in the repository's source.

The validation engine itself (rule evaluation, field evaluation, schema
evaluation) is implemented by the external express-validator library, whose
code is not part of this repository; those parts are modelled from the
specification (sections 4.1-4.3), as marked on each definition.  The
concrete schemas (`userDataValidateChainableAPI`, `userDataValidateSchemaBased`),
the traditional middleware (`userDataValidate`) and the controller (`addUser`)
are embedded directly from the source files.
-/

namespace UserValidation

/-- A JSON-ish value as found in a parsed request body: strings, numbers,
booleans and null.  `Option JsValue` represents a possibly-absent
(JavaScript `undefined`) value. -/
inductive JsValue where
  | str (s : String)
  | num (n : Int)
  | boolean (b : Bool)
  | null
deriving DecidableEq, Repr

/-- A request body record: an association list from field name to value,
as produced by the JSON body parser.  Earlier entries shadow later ones. -/
abbrev ReqBody := List (String × JsValue)

/-- Resolve a field path in a record: `none` models JavaScript `undefined`. -/
def lookupField : ReqBody → String → Option JsValue
  | [], _ => none
  | (k, v) :: rest, key => if k = key then some v else lookupField rest key

/-- JavaScript falsiness of a present value: empty string, zero, `false`
and `null` are falsy. -/
def jsFalsyVal : JsValue → Bool
  | .str s => s = ""
  | .num n => n = 0
  | .boolean b => b = false
  | .null => true

/-- Falsiness of a possibly-absent value: `undefined` is falsy, otherwise
defer to `jsFalsyVal`.  This is the falsy policy used by `Exists` with
`checkFalsy` and by the optional-field skip. -/
def jsFalsy : Option JsValue → Bool
  | none => true
  | some v => jsFalsyVal v

/-- Split a character list at every occurrence of `c`.  Always returns a
nonempty list of (possibly empty) chunks. -/
def splitOnChar (c : Char) : List Char → List (List Char)
  | [] => [[]]
  | x :: xs =>
    let rest := splitOnChar c xs
    if x = c then
      [] :: rest
    else
      match rest with
      | [] => [[x]]
      | r :: rs => (x :: r) :: rs

/-- Modelled from the spec: the documented email-shape grammar for `IsEmail`
(section 4.1) — a local-part and a domain separated by exactly one `@`, the
local part nonempty, and the domain made of at least two nonempty
dot-delimited labels.  Deliberately not a full RFC 5322 parser. -/
def isEmailStr (s : String) : Bool :=
  match splitOnChar '@' s.data with
  | [loc, dom] =>
    loc ≠ [] &&
      (let labels := splitOnChar '.' dom
       2 ≤ labels.length && labels.all (· ≠ []))
  | _ => false

/-- Accumulate decimal digits into a number; `none` on a non-digit. -/
def digitsToNatAux : List Char → Nat → Option Nat
  | [], acc => some acc
  | c :: rest, acc =>
    if c.isDigit then digitsToNatAux rest (acc * 10 + (c.toNat - '0'.toNat)) else none

/-- Parse a nonempty list of decimal digits into a number; `none` when the
list is empty or contains a non-digit. -/
def digitsToNat : List Char → Option Nat
  | [] => none
  | cs => digitsToNatAux cs 0

/-- Modelled from the spec: the calendar-date format predicate for `IsDate`
(section 4.1) — a `YYYY-MM-DD` shape with a four-digit year, a month in
1..12 and a day in 1..31. -/
def isDateStr (s : String) : Bool :=
  match splitOnChar '-' s.data with
  | [y, m, d] =>
    y.length = 4 && y.all Char.isDigit &&
      (match digitsToNat m, digitsToNat d with
       | some mn, some dn => 1 ≤ mn && mn ≤ 12 && 1 ≤ dn && dn ≤ 31
       | _, _ => false)
  | _ => false

/-- Modelled from the spec: the rule kinds of section 3's data model.  The
`custom` predicate of the source's `phoneNumber` chain (reject unless the
value's length is exactly 10) is modelled by the concrete kind
`customLenEq`, keeping rules first-order and comparable. -/
inductive RuleKind where
  | existsCheck (checkFalsy : Bool)
  | isString
  | isNumeric
  | isEmail
  | isIn (values : List String)
  | isLength (min : Option Nat) (max : Option Nat)
  | isDate
  | customLenEq (n : Nat)
deriving DecidableEq, Repr

/-- A rule: a named check plus its configured failure message. -/
structure Rule where
  kind : RuleKind
  message : String
deriving DecidableEq, Repr

/-- A field specification: path, ordered rules, optionality and bail policy,
and the request part the field comes from (always `"body"` for the schemas
in this repository, which use `body()` / `checkSchema` defaulting to body). -/
structure FieldSpec where
  path : String
  rules : List Rule
  optional : Bool
  bail : Bool
  location : String
deriving DecidableEq, Repr

/-- A field error as surfaced in the failure payload: the raw rejected
value, the configured message, the field path and the request part. -/
structure FieldError where
  value : Option JsValue
  msg : String
  param : String
  location : String
deriving DecidableEq, Repr

/-- A schema: field specs in declaration order. -/
abbrev Schema := List FieldSpec

/-- Modelled from the spec: rule evaluation (section 4.1).  `true` means the
rule passes on the (possibly absent) value.  Failures are data, never
exceptions. -/
def ruleEval : RuleKind → Option JsValue → Bool
  | .existsCheck cf, v =>
    match v with
    | none => false
    | some val => if cf then !jsFalsyVal val else true
  | .isString, v =>
    match v with
    | some (.str _) => true
    | _ => false
  | .isNumeric, v =>
    match v with
    | some (.num _) => true
    | _ => false
  | .isEmail, v =>
    match v with
    | some (.str s) => isEmailStr s
    | _ => false
  | .isIn values, v =>
    match v with
    | some (.str s) => values.contains s
    | _ => false
  | .isLength mn mx, v =>
    match v with
    | some (.str s) =>
      (match mn with | some m => decide (m ≤ s.length) | none => true) &&
        (match mx with | some m => decide (s.length ≤ m) | none => true)
    | _ => false
  | .isDate, v =>
    match v with
    | some (.str s) => isDateStr s
    | _ => false
  | .customLenEq n, v =>
    match v with
    | some (.str s) => s.length = n
    | _ => false

/-- Modelled from the spec: iterate a field's rules in declaration order
(section 4.2 step 3), appending one `FieldError` per failing rule and
stopping after the first failure when `bail` is set. -/
def evalRules (path loc : String) (value : Option JsValue) (bail : Bool) :
    List Rule → List FieldError
  | [] => []
  | r :: rest =>
    if ruleEval r.kind value then
      evalRules path loc value bail rest
    else
      { value := value, msg := r.message, param := path, location := loc } ::
        (if bail then [] else evalRules path loc value bail rest)

/-- Modelled from the spec: field evaluation (section 4.2) — resolve the
path, skip everything when the field is optional and its value is
absent/empty per the falsy policy, otherwise run the rules. -/
def evaluateField (fs : FieldSpec) (record : ReqBody) : List FieldError :=
  if fs.optional && jsFalsy (lookupField record fs.path) then []
  else evalRules fs.path fs.location (lookupField record fs.path) fs.bail fs.rules

/-- The engine's result: the success flag plus the ordered field errors. -/
structure ValResult where
  ok : Bool
  errors : List FieldError
deriving DecidableEq, Repr

/-- Modelled from the spec: the validator engine (section 4.3) — evaluate
every field in schema-declaration order, concatenate the field errors, and
report `ok` as emptiness of the collected errors. -/
def validate (s : Schema) (r : ReqBody) : ValResult :=
  let errs := (s.map (fun fs => evaluateField fs r)).flatten
  { ok := errs.isEmpty, errors := errs }

/-!
The concrete validation configurations, embedded from
`src/validations/user.validation.js` (exported through `src/routes/user.router.js`).
-/

/-- The `userName` chain: `body("userName").exists({checkFalsy:true})
.withMessage("User name is required").isString().withMessage("User name should be string")`. -/
def userNameChain : FieldSpec :=
  { path := "userName"
    rules := [⟨.existsCheck true, "User name is required"⟩,
              ⟨.isString, "User name should be string"⟩]
    optional := false, bail := false, location := "body" }

/-- The `password` chain: `exists()`, `isString()`, `isLength({min:5})` with
their configured messages. -/
def passwordChain : FieldSpec :=
  { path := "password"
    rules := [⟨.existsCheck false, "Password is required"⟩,
              ⟨.isString, "Password should be string"⟩,
              ⟨.isLength (some 5) none, "Password should be at least 5 characters"⟩]
    optional := false, bail := false, location := "body" }

/-- The `email` chain: `optional().isEmail().withMessage("Provide valid email")`. -/
def emailChain : FieldSpec :=
  { path := "email"
    rules := [⟨.isEmail, "Provide valid email"⟩]
    optional := true, bail := false, location := "body" }

/-- The `gender` chain: `optional().isString().isIn(["Male","Female","Other"])`. -/
def genderChain : FieldSpec :=
  { path := "gender"
    rules := [⟨.isString, "Gender should be string"⟩,
              ⟨.isIn ["Male", "Female", "Other"], "Gender value is invalid"⟩]
    optional := true, bail := false, location := "body" }

/-- The `dateOfBirth` chain: `optional().isDate().withMessage("DOB should be valid date")`. -/
def dateOfBirthChain : FieldSpec :=
  { path := "dateOfBirth"
    rules := [⟨.isDate, "DOB should be valid date"⟩]
    optional := true, bail := false, location := "body" }

/-- The `phoneNumber` chain: `optional().isString().custom(...)` where the
custom validator rejects with "Phone number should be 10 digits" unless the
value's length is exactly 10. -/
def phoneNumberChain : FieldSpec :=
  { path := "phoneNumber"
    rules := [⟨.isString, "phone number should be string"⟩,
              ⟨.customLenEq 10, "Phone number should be 10 digits"⟩]
    optional := true, bail := false, location := "body" }

/-- The chain-style validator `userDataValidateChainableAPI`: the six field
chains in source declaration order. -/
def userDataValidateChainableAPI : Schema :=
  [userNameChain, passwordChain, emailChain, genderChain,
   dateOfBirthChain, phoneNumberChain]

/-- The `userName` entry of the schema-based object: `exists` with
`checkFalsy: true` and `isString`, same messages as the chain form. -/
def userNameSchemaBased : FieldSpec :=
  { path := "userName"
    rules := [⟨.existsCheck true, "User name is required"⟩,
              ⟨.isString, "User name should be string"⟩]
    optional := false, bail := false, location := "body" }

/-- The `password` entry of the schema-based object; note the lowercase
"password should be string" message, unlike the chain form. -/
def passwordSchemaBased : FieldSpec :=
  { path := "password"
    rules := [⟨.existsCheck false, "Password is required"⟩,
              ⟨.isString, "password should be string"⟩,
              ⟨.isLength (some 5) none, "Password should be at least 5 characters"⟩]
    optional := false, bail := false, location := "body" }

/-- The `email` entry of the schema-based object: only `isEmail`, with the
message "Please provide valid email" — no `optional` marker, unlike the
chain form. -/
def emailSchemaBased : FieldSpec :=
  { path := "email"
    rules := [⟨.isEmail, "Please provide valid email"⟩]
    optional := false, bail := false, location := "body" }

/-- The `gender` entry of the schema-based object: `isString` and `isIn`
with the message "Gender is invalid" — no `optional` marker. -/
def genderSchemaBased : FieldSpec :=
  { path := "gender"
    rules := [⟨.isString, "Gender should be string"⟩,
              ⟨.isIn ["Male", "Female", "Other"], "Gender is invalid"⟩]
    optional := false, bail := false, location := "body" }

/-- The `dateOfBirth` entry of the schema-based object: `isDate` with the
message "DOB should be string" — no `optional` marker. -/
def dateOfBirthSchemaBased : FieldSpec :=
  { path := "dateOfBirth"
    rules := [⟨.isDate, "DOB should be string"⟩]
    optional := false, bail := false, location := "body" }

/-- The `phoneNumber` entry of the schema-based object: only `isString` is a
recognized rule; the stray field-level `options:` function and
`errorMessage` keys do not name a rule kind of the configuration surface
(spec section 6) and so contribute no rule. -/
def phoneNumberSchemaBased : FieldSpec :=
  { path := "phoneNumber"
    rules := [⟨.isString, "phone number should be string"⟩]
    optional := false, bail := false, location := "body" }

/-- The schema-based validator `userDataValidateSchemaBased`: the six field
entries in source declaration order. -/
def userDataValidateSchemaBased : Schema :=
  [userNameSchemaBased, passwordSchemaBased, emailSchemaBased,
   genderSchemaBased, dateOfBirthSchemaBased, phoneNumberSchemaBased]

/-!
The controller, embedded from `src/controllers/user.controller.js`.
-/

/-- A controller response: `res.status(400).json({success:false, errors})`
on validation failure, `res.json({success:true})` (status 200) on success. -/
inductive ControllerResponse where
  | failure (status : Nat) (success : Bool) (errors : List FieldError)
  | success (status : Nat) (success : Bool)
deriving DecidableEq, Repr

/-- Embeds `addUser`: inspect the validation result; when the error list is
nonempty, return the 400 payload with the error array and stop; otherwise
perform the success action and respond `{success: true}`. -/
def addUser (validation : ValResult) : ControllerResponse :=
  if validation.errors.isEmpty then .success 200 true
  else .failure 400 false validation.errors

/-!
The traditional validation middleware, embedded from
`src/validations/user.validation.js` (`userDataValidate`), including the
JavaScript evaluation behaviour of its member accesses.
-/

/-- A thrown JavaScript error (a TypeError from a member access or call on
`undefined`/`null`/a non-object). -/
inductive JsError where
  | typeError (msg : String)
deriving DecidableEq, Repr

/-- The observable outcome of a run of the traditional middleware that did
not throw: whether a 400 response was sent, the final `errorMessage`, and
whether `next()` was invoked. -/
structure TradResult where
  sentStatus : Option Nat
  errorMessage : String
  calledNext : Bool
deriving DecidableEq, Repr

/-- JavaScript `.length` member access on a possibly-absent value: throws a
TypeError on `undefined`/`null`, yields the character count on a string, and
yields `undefined` (here `none`) on other primitives. -/
def jsLengthAccess : Option JsValue → Except JsError (Option Nat)
  | none => .error (.typeError "Cannot read properties of undefined (reading length)")
  | some .null => .error (.typeError "Cannot read properties of null (reading length)")
  | some (.str s) => .ok (some s.length)
  | some (.num _) => .ok none
  | some (.boolean _) => .ok none

/-- The source's email check `req.body.email.match('/^((...))$/')` as a
truthiness test.  The string argument is compiled by `match` into a regular
expression whose first two atoms are a literal `/` followed by the
start-of-input anchor `^`: after consuming the `/` the position is past the
start, so the anchor can never hold and the pattern matches no string —
`match` returns `null` (falsy) for every string receiver.  Accessing
`.match` on `undefined`/`null` throws, and calling it on a number or boolean
(whose `.match` is undefined) also throws. -/
def emailMatchTruthy : Option JsValue → Except JsError Bool
  | none => .error (.typeError "Cannot read properties of undefined (reading match)")
  | some .null => .error (.typeError "Cannot read properties of null (reading match)")
  | some (.str _) => .ok false
  | some (.num _) => .error (.typeError "match is not a function")
  | some (.boolean _) => .error (.typeError "match is not a function")

/-- Embeds `userDataValidate`: a single `errorMessage` variable, overwritten
by each failing check in source order (username falsy, password falsy,
password length below 5, email matching the broken pattern); a 400 response
is sent when the final message is nonempty, and `next()` is then called
unconditionally. -/
def userDataValidate (body : ReqBody) : Except JsError TradResult :=
  let em1 := if jsFalsy (lookupField body "userName") then "username is required" else ""
  let em2 := if jsFalsy (lookupField body "password") then "password is required" else em1
  match jsLengthAccess (lookupField body "password") with
  | .error ex => .error ex
  | .ok plen =>
    let em3 := if (match plen with | some n => decide (n < 5) | none => false) then
                 "password should have atleast 5 characters"
               else em2
    match emailMatchTruthy (lookupField body "email") with
    | .error ex => .error ex
    | .ok ematch =>
      let em4 := if ematch then "provide valid email" else em3
      .ok { sentStatus := if em4 ≠ "" then some 400 else none
            errorMessage := em4
            calledNext := true }

/-!
Helper lemmas about the engine.
-/

/-- A flattened list of lists is empty exactly when every member list is. -/
theorem flatten_nil_iff {α : Type} (L : List (List α)) :
    L.flatten = [] ↔ ∀ l ∈ L, l = [] := by
  induction L with
  | nil => simp
  | cons x xs ih => simp [ih]

/-- Membership in a member list gives membership in the flattened list. -/
theorem mem_flatten_of {α : Type} {e : α} {l : List α} {L : List (List α)}
    (he : e ∈ l) (hl : l ∈ L) : e ∈ L.flatten := by
  induction L with
  | nil => cases hl
  | cons x xs ih =>
    rcases List.mem_cons.mp hl with h | h
    · subst h
      exact List.mem_append.mpr (Or.inl he)
    · exact List.mem_append.mpr (Or.inr (ih h))

/-- Membership in a flattened list comes from some member list. -/
theorem exists_of_mem_flatten {α : Type} {e : α} {L : List (List α)}
    (he : e ∈ L.flatten) : ∃ l, l ∈ L ∧ e ∈ l := by
  induction L with
  | nil => cases he
  | cons x xs ih =>
    rcases List.mem_append.mp he with h | h
    · exact ⟨x, List.mem_cons_self _ _, h⟩
    · obtain ⟨l, hl, hel⟩ := ih h
      exact ⟨l, List.mem_cons_of_mem _ hl, hel⟩

/-- Every error produced by a rule iteration carries the field's path, its
location and the resolved value. -/
theorem mem_evalRules {p l : String} {v : Option JsValue} {b : Bool}
    {rules : List Rule} {e : FieldError} (he : e ∈ evalRules p l v b rules) :
    e.param = p ∧ e.location = l ∧ e.value = v := by
  induction rules with
  | nil => cases he
  | cons r rest ih =>
    by_cases hr : ruleEval r.kind v
    · rw [evalRules, if_pos hr] at he
      exact ih he
    · rw [evalRules, if_neg hr] at he
      rcases List.mem_cons.mp he with h | h
      · subst h
        exact ⟨rfl, rfl, rfl⟩
      · cases b with
        | true => simp at h
        | false => exact ih h

/-- Every error produced by field evaluation carries the field's path, its
location and the value resolved from the record. -/
theorem mem_evaluateField {fs : FieldSpec} {r : ReqBody} {e : FieldError}
    (he : e ∈ evaluateField fs r) :
    e.param = fs.path ∧ e.location = fs.location ∧
      e.value = lookupField r fs.path := by
  unfold evaluateField at he
  split at he
  · cases he
  · exact mem_evalRules he

/-!
The claims.
-/

/-- C1: for every schema and record, the result's `ok` flag is true exactly
when no field of the schema produces any field error; equivalently `ok`
always equals emptiness of the error list, and the controller proceeds to
the success response exactly when the error list is empty. -/
theorem c1_ok_iff_no_field_errors (s : Schema) (r : ReqBody) :
    ((validate s r).ok = true ↔ ∀ fs ∈ s, evaluateField fs r = []) ∧
    (validate s r).ok = (validate s r).errors.isEmpty ∧
    (addUser (validate s r) = .success 200 true ↔ (validate s r).errors = []) := by
  refine ⟨?_, rfl, ?_⟩
  · rw [show (validate s r).ok = ((s.map (fun fs => evaluateField fs r)).flatten).isEmpty from rfl]
    rw [List.isEmpty_iff, flatten_nil_iff]
    constructor
    · intro h fs hfs
      exact h _ (List.mem_map_of_mem _ hfs)
    · intro h l hl
      obtain ⟨fs, hfs, rfl⟩ := List.mem_map.mp hl
      exact h fs hfs
  · unfold addUser
    by_cases h : (validate s r).errors = []
    · simp [h]
    · simp [h, List.isEmpty_iff]

/-- C1 witness: on the chain schema and the record `{password: "tet"}` the
`ok` flag is false, equals emptiness of the error list, and the controller
does not take the success path. -/
theorem c1_witness :
    ((validate userDataValidateChainableAPI [("password", JsValue.str "tet")]).ok = true ↔
      ∀ fs ∈ userDataValidateChainableAPI,
        evaluateField fs [("password", JsValue.str "tet")] = []) ∧
    (validate userDataValidateChainableAPI [("password", JsValue.str "tet")]).ok =
      (validate userDataValidateChainableAPI [("password", JsValue.str "tet")]).errors.isEmpty ∧
    (addUser (validate userDataValidateChainableAPI [("password", JsValue.str "tet")]) =
        .success 200 true ↔
      (validate userDataValidateChainableAPI [("password", JsValue.str "tet")]).errors = []) :=
  c1_ok_iff_no_field_errors userDataValidateChainableAPI [("password", JsValue.str "tet")]

/-- C7: the engine evaluates every field of the schema and accumulates each
field's errors into the final result — no failing field's errors are
dropped, so full collection across fields holds even though a single field
may short-circuit internally via bail. -/
theorem c7_all_fields_collected (s : Schema) (r : ReqBody) (fs : FieldSpec)
    (hfs : fs ∈ s) : ∀ e ∈ evaluateField fs r, e ∈ (validate s r).errors := by
  intro e he
  exact mem_flatten_of he (List.mem_map_of_mem _ hfs)

/-- C7 witness: on the empty record, the userName error produced by the
userName field of the chain schema appears in the final error list. -/
theorem c7_witness :
    FieldError.mk none "User name is required" "userName" "body" ∈
      (validate userDataValidateChainableAPI []).errors :=
  c7_all_fields_collected userDataValidateChainableAPI [] userNameChain (by decide)
    (FieldError.mk none "User name is required" "userName" "body") (by decide)

/-- C2: on validation failure the controller's response is the 400 payload
`{success: false, errors}` whose error list is the errors collected in
schema declaration order, each error arising from its field's evaluation
and carrying the field path as `param`, the field's request part as
`location`, and the raw rejected value as `value` (its `msg` being the
message the evaluation attached). -/
theorem c2_failure_payload (s : Schema) (r : ReqBody)
    (h : (validate s r).ok = false) :
    addUser (validate s r) = .failure 400 false (validate s r).errors ∧
    (validate s r).errors = (s.map (fun fs => evaluateField fs r)).flatten ∧
    ∀ e ∈ (validate s r).errors, ∃ fs, fs ∈ s ∧ e ∈ evaluateField fs r ∧
      e.param = fs.path ∧ e.location = fs.location ∧
      e.value = lookupField r fs.path := by
  refine ⟨?_, rfl, ?_⟩
  · have hne : ¬ (validate s r).errors = [] := by
      intro hnil
      rw [show (validate s r).ok = (validate s r).errors.isEmpty from rfl, hnil] at h
      cases h
    unfold addUser
    rw [if_neg (by rwa [List.isEmpty_iff])]
  · intro e he
    obtain ⟨l, hl, hel⟩ := exists_of_mem_flatten he
    obtain ⟨fs, hfs, rfl⟩ := List.mem_map.mp hl
    obtain ⟨h1, h2, h3⟩ := mem_evaluateField hel
    exact ⟨fs, hfs, hel, h1, h2, h3⟩

/-- C2 witness: the record `{password: "tet"}` fails against the chain
schema, and the 400 payload with the ordered error list is produced, every
error traceable to its field. -/
theorem c2_witness :
    (validate userDataValidateChainableAPI [("password", JsValue.str "tet")]).ok = false ∧
    (addUser (validate userDataValidateChainableAPI [("password", JsValue.str "tet")]) =
        .failure 400 false
          (validate userDataValidateChainableAPI [("password", JsValue.str "tet")]).errors ∧
      (validate userDataValidateChainableAPI [("password", JsValue.str "tet")]).errors =
        (userDataValidateChainableAPI.map
          (fun fs => evaluateField fs [("password", JsValue.str "tet")])).flatten ∧
      ∀ e ∈ (validate userDataValidateChainableAPI [("password", JsValue.str "tet")]).errors,
        ∃ fs, fs ∈ userDataValidateChainableAPI ∧
          e ∈ evaluateField fs [("password", JsValue.str "tet")] ∧
          e.param = fs.path ∧ e.location = fs.location ∧
          e.value = lookupField [("password", JsValue.str "tet")] fs.path) :=
  ⟨by decide, c2_failure_payload userDataValidateChainableAPI
    [("password", JsValue.str "tet")] (by decide)⟩

/-- C8: a field spec whose two rules both fail yields exactly one error
(the first rule's message) when bail is set, and exactly two errors in rule
declaration order when it is not. -/
theorem c8_bail_semantics (p l : String) (record : ReqBody) (r1 r2 : Rule)
    (h1 : ruleEval r1.kind (lookupField record p) = false)
    (h2 : ruleEval r2.kind (lookupField record p) = false) :
    evaluateField ⟨p, [r1, r2], false, true, l⟩ record =
      [⟨lookupField record p, r1.message, p, l⟩] ∧
    evaluateField ⟨p, [r1, r2], false, false, l⟩ record =
      [⟨lookupField record p, r1.message, p, l⟩,
       ⟨lookupField record p, r2.message, p, l⟩] := by
  constructor <;> simp [evaluateField, evalRules, h1, h2]

/-- C8 witness: the exists and isString rules of the password field both
fail on the empty record; with bail set the field yields one error, without
it two, in order. -/
theorem c8_witness :
    evaluateField ⟨"password", [⟨.existsCheck false, "Password is required"⟩,
        ⟨.isString, "Password should be string"⟩], false, true, "body"⟩ [] =
      [⟨none, "Password is required", "password", "body"⟩] ∧
    evaluateField ⟨"password", [⟨.existsCheck false, "Password is required"⟩,
        ⟨.isString, "Password should be string"⟩], false, false, "body"⟩ [] =
      [⟨none, "Password is required", "password", "body"⟩,
       ⟨none, "Password should be string", "password", "body"⟩] :=
  c8_bail_semantics "password" "body" []
    ⟨.existsCheck false, "Password is required"⟩
    ⟨.isString, "Password should be string"⟩ (by decide) (by decide)

/-- C4 counterexample: the record `{password: "tet"}` against the chain
schema does not yield exactly two errors — the userName field contributes
two (the exists failure and the isString failure on the absent value), so
the list has three entries. -/
theorem c4_counterexample :
    (validate userDataValidateChainableAPI [("password", JsValue.str "tet")]).errors.length ≠ 2 := by
  decide

/-- C4 amended: that record yields ok=false with exactly three errors in
order — userName "User name is required", userName "User name should be
string", password "Password should be at least 5 characters". -/
theorem c4_amended_three_errors :
    validate userDataValidateChainableAPI [("password", JsValue.str "tet")] =
      ⟨false, [⟨none, "User name is required", "userName", "body"⟩,
               ⟨none, "User name should be string", "userName", "body"⟩,
               ⟨some (JsValue.str "tet"), "Password should be at least 5 characters",
                 "password", "body"⟩]⟩ := by
  decide

/-- C5 counterexample: in the schema-based validator the email entry has no
optional marker, so a record with no email key still produces an email
error. -/
theorem c5_counterexample :
    FieldError.mk none "Please provide valid email" "email" "body" ∈
      (validate userDataValidateSchemaBased
        [("userName", JsValue.str "alice"), ("password", JsValue.str "secret1")]).errors := by
  decide

/-- C5 amended: an optional field whose value is absent or falsy yields no
errors (none of its rules run); in particular the chain validator's email
field yields no error on a record without an email key — but the
schema-based validator's email entry, lacking the optional marker, yields
one error on such a record. -/
theorem c5_optional_absent_skips (fs : FieldSpec) (r : ReqBody)
    (hopt : fs.optional = true) (habs : jsFalsy (lookupField r fs.path) = true) :
    evaluateField fs r = [] ∧
    (∀ r2 : ReqBody, jsFalsy (lookupField r2 "email") = true →
      evaluateField emailChain r2 = []) ∧
    evaluateField emailSchemaBased
        [("userName", JsValue.str "alice"), ("password", JsValue.str "secret1")] =
      [⟨none, "Please provide valid email", "email", "body"⟩] := by
  refine ⟨?_, ?_, by decide⟩
  · unfold evaluateField
    rw [if_pos (by rw [hopt, habs]; rfl)]
  · intro r2 habs2
    unfold evaluateField
    rw [if_pos (by simp [emailChain, habs2])]

/-- C5 witness: the chain validator's optional email field on the empty
record is skipped entirely, while the schema-based email entry errors on a
record without an email key. -/
theorem c5_witness :
    evaluateField emailChain [] = [] ∧
    (∀ r2 : ReqBody, jsFalsy (lookupField r2 "email") = true →
      evaluateField emailChain r2 = []) ∧
    evaluateField emailSchemaBased
        [("userName", JsValue.str "alice"), ("password", JsValue.str "secret1")] =
      [⟨none, "Please provide valid email", "email", "body"⟩] :=
  c5_optional_absent_skips emailChain [] (by decide) (by decide)

/-- C6 counterexample: on the empty record the chain validator and the
schema-based validator produce different results — the chain form skips its
four optional fields while the schema-based form, which marks none of them
optional, errors on all of them (and with different messages). -/
theorem c6_counterexample :
    validate userDataValidateChainableAPI [] ≠ validate userDataValidateSchemaBased [] := by
  decide

/-- C6 amended: the two configuration styles agree only on records whose
email, gender, dateOfBirth and phoneNumber fields are present and pass
their rules and whose password is a string; in general they differ, since
the schema-based form omits every optional marker and the phoneNumber
custom rule and uses different messages for email, gender and the
password isString rule. -/
theorem c6_agreement_on_passing_optionals (r : ReqBody) (pw em g d ph : String)
    (hpw : lookupField r "password" = some (JsValue.str pw))
    (hem : lookupField r "email" = some (JsValue.str em))
    (hemv : isEmailStr em = true)
    (hg : lookupField r "gender" = some (JsValue.str g))
    (hgv : (["Male", "Female", "Other"] : List String).contains g = true)
    (hd : lookupField r "dateOfBirth" = some (JsValue.str d))
    (hdv : isDateStr d = true)
    (hph : lookupField r "phoneNumber" = some (JsValue.str ph))
    (hphv : ph.length = 10) :
    validate userDataValidateChainableAPI r = validate userDataValidateSchemaBased r := by
  have hemne : em ≠ "" := by
    intro hq
    rw [hq] at hemv
    exact absurd hemv (by decide)
  have hgne : g ≠ "" := by
    intro hq
    rw [hq] at hgv
    exact absurd hgv (by decide)
  have hdne : d ≠ "" := by
    intro hq
    rw [hq] at hdv
    exact absurd hdv (by decide)
  have hphne : ph ≠ "" := by
    intro hq
    rw [hq] at hphv
    exact absurd hphv (by decide)
  have hpwEq : evaluateField passwordChain r = evaluateField passwordSchemaBased r := by
    simp [passwordChain, passwordSchemaBased, evaluateField, evalRules, ruleEval, hpw]
  have hemC : evaluateField emailChain r = [] := by
    simp [emailChain, evaluateField, evalRules, ruleEval, hem, jsFalsy, jsFalsyVal, hemne, hemv]
  have hemS : evaluateField emailSchemaBased r = [] := by
    simp [emailSchemaBased, evaluateField, evalRules, ruleEval, hem, hemv]
  have hgOr : g = "Male" ∨ g = "Female" ∨ g = "Other" := by
    simpa using hgv
  have hgC : evaluateField genderChain r = [] := by
    simp [genderChain, evaluateField, evalRules, ruleEval, hg, jsFalsy, jsFalsyVal, hgne]
    intro h1 h2
    rcases hgOr with h | h | h
    · exact absurd h h1
    · exact absurd h h2
    · exact h
  have hgS : evaluateField genderSchemaBased r = [] := by
    simp [genderSchemaBased, evaluateField, evalRules, ruleEval, hg]
    intro h1 h2
    rcases hgOr with h | h | h
    · exact absurd h h1
    · exact absurd h h2
    · exact h
  have hdC : evaluateField dateOfBirthChain r = [] := by
    simp [dateOfBirthChain, evaluateField, evalRules, ruleEval, hd, jsFalsy, jsFalsyVal, hdne, hdv]
  have hdS : evaluateField dateOfBirthSchemaBased r = [] := by
    simp [dateOfBirthSchemaBased, evaluateField, evalRules, ruleEval, hd, hdv]
  have hphC : evaluateField phoneNumberChain r = [] := by
    simp [phoneNumberChain, evaluateField, evalRules, ruleEval, hph, jsFalsy, jsFalsyVal,
      hphne, hphv]
  have hphS : evaluateField phoneNumberSchemaBased r = [] := by
    simp [phoneNumberSchemaBased, evaluateField, evalRules, ruleEval, hph]
  have hmap : userDataValidateChainableAPI.map (fun fs => evaluateField fs r) =
      userDataValidateSchemaBased.map (fun fs => evaluateField fs r) := by
    simp only [userDataValidateChainableAPI, userDataValidateSchemaBased,
      List.map_cons, List.map_nil]
    rw [hpwEq, hemC, hemS, hgC, hgS, hdC, hdS, hphC, hphS]
    rfl
  unfold validate
  rw [hmap]

/-- C6 witness: on a fully-populated record whose optional-style fields all
pass, the two validators coincide. -/
theorem c6_witness :
    validate userDataValidateChainableAPI
        [("userName", JsValue.str "alice"), ("password", JsValue.str "secret1"),
         ("email", JsValue.str "a@b.co"), ("gender", JsValue.str "Male"),
         ("dateOfBirth", JsValue.str "2000-01-02"),
         ("phoneNumber", JsValue.str "0123456789")] =
      validate userDataValidateSchemaBased
        [("userName", JsValue.str "alice"), ("password", JsValue.str "secret1"),
         ("email", JsValue.str "a@b.co"), ("gender", JsValue.str "Male"),
         ("dateOfBirth", JsValue.str "2000-01-02"),
         ("phoneNumber", JsValue.str "0123456789")] :=
  c6_agreement_on_passing_optionals _ "secret1" "a@b.co" "Male" "2000-01-02" "0123456789"
    (by decide) (by decide) (by decide) (by decide) (by decide) (by decide) (by decide)
    (by decide) (by decide)

/-- C3 counterexample: the traditional validator throws for a body with no
password — `req.body.password.length` is a member access on `undefined` —
so it does not return failures as data for every request body. -/
theorem c3_counterexample :
    userDataValidate [("userName", JsValue.str "alice")] =
      .error (.typeError "Cannot read properties of undefined (reading length)") := rfl

/-- C3 amended: the traditional validator throws a TypeError exactly when
the body's password is absent or null (the unguarded `.length` access) or
its email is not a string (the unguarded `.match` access or call — absent,
null, or a non-string primitive); for every other body, in particular
whenever password and email are both strings, it returns normally,
reporting rule failures only through the errorMessage data.  (A numeric or
boolean password does not throw: its `.length` is undefined and
`undefined < 5` is false.) -/
theorem c3_throw_characterization (body : ReqBody) :
    (∃ ex, userDataValidate body = .error ex) ↔
      (lookupField body "password" = none ∨
        lookupField body "password" = some JsValue.null ∨
        ¬ ∃ s, lookupField body "email" = some (JsValue.str s)) := by
  rcases hp : lookupField body "password" with _ | (ps | pn | pb | _) <;>
    rcases he : lookupField body "email" with _ | (es | en | eb | _) <;>
      simp [userDataValidate, hp, he, jsLengthAccess, emailMatchTruthy]

/-- C3 witness: a body with no password throws, and the characterization
instantiates there. -/
theorem c3_witness :
    ∃ ex, userDataValidate [("userName", JsValue.str "alice")] = .error ex :=
  (c3_throw_characterization [("userName", JsValue.str "alice")]).mpr
    (Or.inl (by decide))

/-- C9 counterexample: for a body missing userName (password and email
valid strings), the traditional middleware sends the 400 response and still
invokes `next()` — control continues into the protected handler. -/
theorem c9_counterexample :
    userDataValidate [("password", JsValue.str "secret1"), ("email", JsValue.str "a@b.com")] =
      .ok ⟨some 400, "username is required", true⟩ := rfl

/-- C9 amended: the controller `addUser` never proceeds to the success path
when the error list is nonempty (it returns the 400 error payload), but the
traditional middleware `userDataValidate` invokes `next()` on every
non-throwing run, including those in which it sent its 400 response. -/
theorem c9_no_proceed_but_next_called :
    (∀ v : ValResult, v.errors ≠ [] → addUser v = .failure 400 false v.errors) ∧
    (∀ (body : ReqBody) (t : TradResult),
      userDataValidate body = .ok t → t.calledNext = true) := by
  constructor
  · intro v hv
    unfold addUser
    rw [if_neg (by rwa [List.isEmpty_iff])]
  · intro body t h
    simp only [userDataValidate] at h
    split at h
    · cases h
    · split at h
      · cases h
      · cases h
        rfl

/-- C9 witness: the controller rejects a result with one error, and the
run of the traditional middleware that sent a 400 for the missing userName
reports that `next()` was called. -/
theorem c9_witness :
    addUser ⟨false, [⟨none, "User name is required", "userName", "body"⟩]⟩ =
      .failure 400 false [⟨none, "User name is required", "userName", "body"⟩] ∧
    TradResult.calledNext ⟨some 400, "username is required", true⟩ = true :=
  ⟨c9_no_proceed_but_next_called.1 _ (by decide),
   c9_no_proceed_but_next_called.2
     [("password", JsValue.str "secret1"), ("email", JsValue.str "a@b.com")] _ rfl⟩

/-- The messages of the traditional validator's failing checks, in source
order, given the results of the password `.length` access and of the email
`.match` call: the userName falsy check, the password falsy check, the
password-length check, and the email-match check. -/
def tradFailingMessages (body : ReqBody) (plen : Option Nat) (ematch : Bool) :
    List String :=
  (if jsFalsy (lookupField body "userName") then ["username is required"] else []) ++
  (if jsFalsy (lookupField body "password") then ["password is required"] else []) ++
  (if (match plen with | some n => decide (n < 5) | none => false) then
     ["password should have atleast 5 characters"] else []) ++
  (if ematch then ["provide valid email"] else [])

/-- The last element of a message list, or the default for an empty one:
the message a chain of overwriting assignments leaves behind. -/
def lastMessageD : List String → String → String
  | [], d => d
  | [m], _ => m
  | _ :: m :: ms, d => lastMessageD (m :: ms) d

/-- C10: on every non-throwing run of the traditional validator, the single
`errorMessage` reported is exactly the message of the last failing check in
source order (each later failing check's assignment overwriting the
earlier), and the 400 response is sent exactly when at least one check
failed — never an accumulated list of all failures. -/
theorem c10_last_failing_check_wins (body : ReqBody) (t : TradResult)
    (plen : Option Nat) (ematch : Bool)
    (hplen : jsLengthAccess (lookupField body "password") = .ok plen)
    (hmatch : emailMatchTruthy (lookupField body "email") = .ok ematch)
    (h : userDataValidate body = .ok t) :
    t.errorMessage = lastMessageD (tradFailingMessages body plen ematch) "" ∧
    t.sentStatus =
      (if tradFailingMessages body plen ematch = [] then none else some 400) := by
  simp only [userDataValidate] at h
  split at h
  next ex heq => cases h
  next plen2 heq =>
    rw [hplen] at heq
    injection heq with h1
    subst h1
    split at h
    next ex heq2 => cases h
    next ematch2 heq2 =>
      rw [hmatch] at heq2
      injection heq2 with h2
      subst h2
      injection h with h3
      subst h3
      rcases plen with _ | n
      · by_cases hu : jsFalsy (lookupField body "userName") = true <;>
          by_cases hp : jsFalsy (lookupField body "password") = true <;>
            by_cases hm : ematch = true <;>
              simp [tradFailingMessages, lastMessageD, hu, hp, hm]
      · by_cases hn : n < 5 <;>
          by_cases hu : jsFalsy (lookupField body "userName") = true <;>
            by_cases hp : jsFalsy (lookupField body "password") = true <;>
              by_cases hm : ematch = true <;>
                simp [tradFailingMessages, lastMessageD, hu, hp, hm, hn]

/-- C10 witness: the body `{userName:"", password:0, email:"x"}` fails both
the userName check and the password-required check, and the single message
reported is the later one, "password is required". -/
theorem c10_witness :
    TradResult.errorMessage ⟨some 400, "password is required", true⟩ =
      lastMessageD (tradFailingMessages
        [("userName", JsValue.str ""), ("password", JsValue.num 0),
         ("email", JsValue.str "x")] none false) "" ∧
    TradResult.sentStatus ⟨some 400, "password is required", true⟩ =
      (if tradFailingMessages
          [("userName", JsValue.str ""), ("password", JsValue.num 0),
           ("email", JsValue.str "x")] none false = [] then none else some 400) :=
  c10_last_failing_check_wins
    [("userName", JsValue.str ""), ("password", JsValue.num 0),
     ("email", JsValue.str "x")]
    ⟨some 400, "password is required", true⟩ none false rfl rfl rfl

end UserValidation
